import Mathlib

/-!
Shallow embedding of the menu-management backend (Express + Prisma, TypeScript).

Source files embedded:
  * `src/unnamed/part_003`            — Category controller (`createCategory`, `getCategories`,
                                        `getCategory`, `editCategory`)
  * `src/src/controllers/SubCategory.ts` — SubCategory controller
  * `src/src/controllers/Item.ts`        — Item controller
  * `src/unnamed/part_001`            — Prisma schema (field types and nullability)

Modelling conventions:
  * Request-body fields are `Option`-typed with the type the Prisma schema gives the column;
    an absent JSON key is `none`.  JavaScript truthiness on these values is made explicit by
    the `jsTruthy*` helpers (empty string, `0`, `false`, `undefined`/`null` are falsy).
  * Prisma `Float` columns are modelled as `Int`: every arithmetic fact the controllers rely
    on (subtraction, comparison with zero) is exact, so no floating-point behaviour is lost.
  * The database is explicit state (`DB`); each Prisma call becomes a list operation
    (`findFirst`/`findUnique` → `List.find?`, `findMany` with a `where` → `List.filter`,
    `create` → append, `update` by id → `List.map` guarded on the id).  Generated `uuid()`
    primary keys are passed in as an explicit `newId` argument.  `createdAt`/`updatedAt`
    timestamps are not modelled; no claim mentions them.
  * An Express handler becomes a function from its inputs and the state to a `Response`
    (and the new state when it mutates).  `res.status(s).json(x)` is `Response.payload s x`
    for records/arrays and `Response.failure s msg` for `{ message: ... }` bodies.
-/

/-- HTTP outcome of a handler: either a JSON payload (a record or an array) with a status
code, or a `{ message: ... }` error body with a status code. -/
inductive Response (α : Type) where
  | payload (status : Nat) (body : α)
  | failure (status : Nat) (message : String)
deriving DecidableEq, Repr

/-- The HTTP status code of a response, whichever shape it has. -/
def Response.statusCode {α : Type} : Response α → Nat
  | .payload s _ => s
  | .failure s _ => s

/-- JavaScript truthiness of an optional string: `undefined` and `""` are falsy. -/
def jsTruthyStr : Option String → Bool
  | some s => s != ""
  | none => false

/-- JavaScript truthiness of an optional number: `undefined` and `0` are falsy. -/
def jsTruthyNum : Option Int → Bool
  | some n => n != 0
  | none => false

/-- JavaScript truthiness of an optional boolean: only `true` is truthy. -/
def jsTruthyBool : Option Bool → Bool
  | some b => b
  | none => false

/-- The strict comparison `v === true` on an optional boolean. -/
def strictEqTrue : Option Bool → Bool
  | some true => true
  | _ => false

/-- JavaScript `o || d` for a number against a number default (used as `discount || 0`). -/
def jsOrNum (o : Option Int) (d : Int) : Int :=
  if jsTruthyNum o then o.getD d else d

/-- JavaScript `o || d` for a number against a nullable default (used as `tax || defaultTax`). -/
def jsOrNumOpt (o : Option Int) (d : Option Int) : Option Int :=
  if jsTruthyNum o then o else d

/-- JavaScript `o || d` for a boolean against a boolean default
(used as `taxApplicable || defaultTaxApplicable`). -/
def jsOrBool (o : Option Bool) (d : Bool) : Bool :=
  if jsTruthyBool o then true else d

/-- The conditional spread `...v && { field: v }` on a required string column:
the new value is stored only when truthy, otherwise the prior value is kept. -/
def spreadStr (o : Option String) (old : String) : String :=
  if jsTruthyStr o then o.getD old else old

/-- The conditional spread `...v && { field: v }` on a nullable string column. -/
def spreadStrOpt (o : Option String) (old : Option String) : Option String :=
  if jsTruthyStr o then o else old

/-- The conditional spread `...v && { field: v }` on a required numeric column. -/
def spreadNum (o : Option Int) (old : Int) : Int :=
  if jsTruthyNum o then o.getD old else old

/-- The conditional spread `...v && { field: v }` on a nullable numeric column. -/
def spreadNumOpt (o : Option Int) (old : Option Int) : Option Int :=
  if jsTruthyNum o then o else old

/-- The conditional spread `...v && { field: v }` on a required boolean column:
only `true` is truthy, so the stored value changes only when `true` is supplied. -/
def spreadBool (o : Option Bool) (old : Bool) : Bool :=
  if jsTruthyBool o then true else old

/-- The conditional spread `...v && { field: v }` on a nullable boolean column. -/
def spreadBoolOpt (o : Option Bool) (old : Option Bool) : Option Bool :=
  if jsTruthyBool o then o else old

/-- Prisma's `{ contains: q, mode: "insensitive" }`: case-insensitive substring test
(both sides lower-cased characterwise, then a list-infix check). -/
def containsInsensitive (hay q : String) : Bool :=
  decide ((q.toList.map Char.toLower) <:+: (hay.toList.map Char.toLower))

/-- A `Category` row (Prisma schema: `taxApplicable Boolean` required,
`tax Float?`, `taxType String?`). -/
structure Category where
  id : String
  name : String
  image : String
  description : String
  taxApplicable : Bool
  tax : Option Int
  taxType : Option String
deriving DecidableEq, Repr

/-- A `SubCategory` row (Prisma schema: `taxApplicable Boolean?`, `tax Float?`,
`categoryId String` required). -/
structure SubCategory where
  id : String
  name : String
  image : String
  description : String
  taxApplicable : Option Bool
  tax : Option Int
  categoryId : String
deriving DecidableEq, Repr

/-- An `Item` row (Prisma schema: `taxApplicable Boolean?`, `tax Float?`, `baseAmount Float`,
`discount Float?`, `totalAmount Float`, `subCategoryId String?`, `categoryId String?`).
`discount` is modelled non-nullable because `createItem` always materialises `discount || 0`. -/
structure Item where
  id : String
  name : String
  image : String
  description : String
  taxApplicable : Option Bool
  tax : Option Int
  baseAmount : Int
  discount : Int
  totalAmount : Int
  subCategoryId : Option String
  categoryId : Option String
deriving DecidableEq, Repr

/-- The persistent store: the three tables. -/
structure DB where
  categories : List Category
  subCategories : List SubCategory
  items : List Item
deriving DecidableEq, Repr

/-- Request body for POST/PUT category routes (absent JSON keys are `none`). -/
structure CategoryBody where
  name : Option String
  image : Option String
  description : Option String
  taxApplicable : Option Bool
  tax : Option Int
  taxType : Option String
deriving DecidableEq, Repr

/-- Request body for POST/PUT subcategory routes (`editSubCategory` ignores `categoryId`,
as the source destructures only the other five fields). -/
structure SubCategoryBody where
  name : Option String
  image : Option String
  description : Option String
  taxApplicable : Option Bool
  tax : Option Int
  categoryId : Option String
deriving DecidableEq, Repr

/-- Request body for POST/PUT item routes; `subCategory` and `category` carry parent ids. -/
structure ItemBody where
  name : Option String
  image : Option String
  description : Option String
  taxApplicable : Option Bool
  tax : Option Int
  baseAmount : Option Int
  discount : Option Int
  subCategory : Option String
  category : Option String
deriving DecidableEq, Repr

/-! ## Category controller (`src/unnamed/part_003`) -/

/-- `createCategory`: guards `!name || !image || !description || taxApplicable === undefined`,
then `taxApplicable === true && (!tax && !taxType)`, then creates the row and returns 201. -/
def createCategory (b : CategoryBody) (newId : String) (db : DB) :
    Response Category × DB :=
  if !jsTruthyStr b.name || !jsTruthyStr b.image || !jsTruthyStr b.description
      || b.taxApplicable.isNone then
    (.failure 400 "All fields are required", db)
  else if strictEqTrue b.taxApplicable && (!jsTruthyNum b.tax && !jsTruthyStr b.taxType) then
    (.failure 400 "Tax or TaxType is required", db)
  else
    let c : Category :=
      { id := newId
        name := b.name.getD ""
        image := b.image.getD ""
        description := b.description.getD ""
        taxApplicable := b.taxApplicable.getD false
        tax := b.tax
        taxType := b.taxType }
    (.payload 201 c, { db with categories := db.categories ++ [c] })

/-- `getCategories`: `findMany`, 404 on an empty table, else 200 with every row. -/
def getCategories (db : DB) : Response (List Category) :=
  if db.categories.isEmpty then .failure 404 "Categories not found"
  else .payload 200 db.categories

/-- `getCategory`: requires `id` or `name` in the query; looks up by id when `id` is truthy,
otherwise first case-insensitive substring match on the name. -/
def getCategory (id name : Option String) (db : DB) : Response Category :=
  if !jsTruthyStr id && !jsTruthyStr name then
    .failure 400 "Id or name is required"
  else
    let found :=
      if jsTruthyStr id then db.categories.find? (fun c => c.id == id.getD "")
      else db.categories.find? (fun c => containsInsensitive c.name (name.getD ""))
    match found with
    | none => .failure 404 "Category not found"
    | some c => .payload 200 c

/-- The `data` object of `editCategory`'s `prisma.category.update` call: one conditional
spread `...v && { field: v }` per updatable column. -/
def editCategoryApply (b : CategoryBody) (x : Category) : Category :=
  { x with
    name := spreadStr b.name x.name
    image := spreadStr b.image x.image
    description := spreadStr b.description x.description
    taxApplicable := spreadBool b.taxApplicable x.taxApplicable
    tax := spreadNumOpt b.tax x.tax
    taxType := spreadStrOpt b.taxType x.taxType }

/-- `editCategory`: guards in source order (`!id`; at-least-one-field with
`taxApplicable === undefined`; `taxApplicable === true && (!tax && !taxType)`), then a 404
existence check, then the conditional-spread update returning the updated row with 200. -/
def editCategory (id : String) (b : CategoryBody) (db : DB) :
    Response Category × DB :=
  if id = "" then (.failure 400 "Id is required", db)
  else if !jsTruthyStr b.name && !jsTruthyStr b.image && !jsTruthyStr b.description
      && b.taxApplicable.isNone && !jsTruthyNum b.tax && !jsTruthyStr b.taxType then
    (.failure 400 "At least one field is required", db)
  else if strictEqTrue b.taxApplicable && (!jsTruthyNum b.tax && !jsTruthyStr b.taxType) then
    (.failure 400 "Tax or TaxType is required", db)
  else
    match db.categories.find? (fun c => c.id == id) with
    | none => (.failure 404 "Category not found", db)
    | some c =>
      (.payload 200 (editCategoryApply b c),
       { db with
          categories :=
            db.categories.map (fun x => if x.id == id then editCategoryApply b x else x) })

/-! ## SubCategory controller (`src/src/controllers/SubCategory.ts`) -/

/-- `createSubCategory`: guards `!name || !image || !description || !categoryId`, resolves
the parent category (404 otherwise), then stores `taxApplicable || category.taxApplicable`
and `tax || category.tax` and returns the row with status 200. -/
def createSubCategory (b : SubCategoryBody) (newId : String) (db : DB) :
    Response SubCategory × DB :=
  if !jsTruthyStr b.name || !jsTruthyStr b.image || !jsTruthyStr b.description
      || !jsTruthyStr b.categoryId then
    (.failure 400 "All fields are required", db)
  else
    match db.categories.find? (fun c => c.id == b.categoryId.getD "") with
    | none => (.failure 404 "Category not found, unable to create subcategory", db)
    | some category =>
      let s : SubCategory :=
        { id := newId
          name := b.name.getD ""
          image := b.image.getD ""
          description := b.description.getD ""
          taxApplicable := some (jsOrBool b.taxApplicable category.taxApplicable)
          tax := jsOrNumOpt b.tax category.tax
          categoryId := b.categoryId.getD "" }
      (.payload 200 s, { db with subCategories := db.subCategories ++ [s] })

/-- `getSubCategories`: `findMany`, 404 on an empty table, else 200 with every row. -/
def getSubCategories (db : DB) : Response (List SubCategory) :=
  if db.subCategories.isEmpty then .failure 404 "SubCategories not found"
  else .payload 200 db.subCategories

/-- `getSubCategoriesByCategory`: requires a path id, filters by `categoryId`, 404 when the
filter is empty, else 200 with the matching rows. -/
def getSubCategoriesByCategory (id : String) (db : DB) : Response (List SubCategory) :=
  if id = "" then .failure 400 "Id is required"
  else
    let subs := db.subCategories.filter (fun s => s.categoryId == id)
    if subs.isEmpty then .failure 404 "SubCategories not found"
    else .payload 200 subs

/-- `getSubCategory`: requires `id` or `name`; id lookup when `id` is truthy, otherwise
first case-insensitive substring match on the name. -/
def getSubCategory (id name : Option String) (db : DB) : Response SubCategory :=
  if !jsTruthyStr id && !jsTruthyStr name then
    .failure 400 "Id or name is required"
  else
    let found :=
      if jsTruthyStr id then db.subCategories.find? (fun s => s.id == id.getD "")
      else db.subCategories.find? (fun s => containsInsensitive s.name (name.getD ""))
    match found with
    | none => .failure 404 "SubCategory not found"
    | some s => .payload 200 s

/-- The `data` object of `editSubCategory`'s `prisma.subCategory.update` call. -/
def editSubCategoryApply (b : SubCategoryBody) (x : SubCategory) : SubCategory :=
  { x with
    name := spreadStr b.name x.name
    image := spreadStr b.image x.image
    description := spreadStr b.description x.description
    taxApplicable := spreadBoolOpt b.taxApplicable x.taxApplicable
    tax := spreadNumOpt b.tax x.tax }

/-- `editSubCategory`: guards `!id`, then at-least-one-field (with
`taxApplicable === undefined`), then a 404 existence check, then the conditional-spread
update returning the updated row with 200. -/
def editSubCategory (id : String) (b : SubCategoryBody) (db : DB) :
    Response SubCategory × DB :=
  if id = "" then (.failure 400 "Id is required", db)
  else if !jsTruthyStr b.name && !jsTruthyStr b.image && !jsTruthyStr b.description
      && b.taxApplicable.isNone && !jsTruthyNum b.tax then
    (.failure 400 "At least one field is required", db)
  else
    match db.subCategories.find? (fun s => s.id == id) with
    | none => (.failure 404 "SubCategory not found", db)
    | some s =>
      (.payload 200 (editSubCategoryApply b s),
       { db with
          subCategories :=
            db.subCategories.map (fun x => if x.id == id then editSubCategoryApply b x else x) })

/-! ## Item controller (`src/src/controllers/Item.ts`) -/

/-- `createItem`: guards
`!name || !image || !description || taxApplicable === undefined || !baseAmount ||
(!subCategory && !category)`, resolves any truthy parent id (404 otherwise), then stores the
row with `discount: discount || 0` and `totalAmount: baseAmount - (discount || 0)`,
returning 201. -/
def createItem (b : ItemBody) (newId : String) (db : DB) : Response Item × DB :=
  if !jsTruthyStr b.name || !jsTruthyStr b.image || !jsTruthyStr b.description
      || b.taxApplicable == none || !jsTruthyNum b.baseAmount
      || (!jsTruthyStr b.subCategory && !jsTruthyStr b.category) then
    (.failure 400 "All fields are required", db)
  else if jsTruthyStr b.subCategory
      && (db.subCategories.find? (fun s => s.id == b.subCategory.getD "")).isNone then
    (.failure 404 "SubCategory not found, unable to create item", db)
  else if jsTruthyStr b.category
      && (db.categories.find? (fun c => c.id == b.category.getD "")).isNone then
    (.failure 404 "Category not found, unable to create item", db)
  else
    let item : Item :=
      { id := newId
        name := b.name.getD ""
        image := b.image.getD ""
        description := b.description.getD ""
        taxApplicable := b.taxApplicable
        tax := b.tax
        baseAmount := b.baseAmount.getD 0
        discount := jsOrNum b.discount 0
        totalAmount := b.baseAmount.getD 0 - jsOrNum b.discount 0
        subCategoryId := if jsTruthyStr b.subCategory then b.subCategory else none
        categoryId := if jsTruthyStr b.category then b.category else none }
    (.payload 201 item, { db with items := db.items ++ [item] })

/-- `getItems`: `findMany`, 404 on an empty table, else 200 with every row. -/
def getItems (db : DB) : Response (List Item) :=
  if db.items.isEmpty then .failure 404 "Items not found"
  else .payload 200 db.items

/-- `getItem`: requires `id` or `name`; id lookup when `id` is truthy, otherwise first
case-insensitive substring match on the name. -/
def getItem (id name : Option String) (db : DB) : Response Item :=
  if !jsTruthyStr id && !jsTruthyStr name then
    .failure 400 "Id or name is required"
  else
    let found :=
      if jsTruthyStr id then db.items.find? (fun i => i.id == id.getD "")
      else db.items.find? (fun i => containsInsensitive i.name (name.getD ""))
    match found with
    | none => .failure 404 "item not found"
    | some i => .payload 200 i

/-- `getItemsByCategory`: requires a path id, filters by `categoryId`, 404 when the filter
is empty, else 200 with the matching rows. -/
def getItemsByCategory (id : String) (db : DB) : Response (List Item) :=
  if id = "" then .failure 400 "Id is required"
  else
    let items := db.items.filter (fun i => i.categoryId == some id)
    if items.isEmpty then .failure 404 "Items not found"
    else .payload 200 items

/-- `getItemsBySubCategory`: requires a path id, filters by `subCategoryId`, 404 when the
filter is empty, else 200 with the matching rows. -/
def getItemsBySubCategory (id : String) (db : DB) : Response (List Item) :=
  if id = "" then .failure 400 "Id is required"
  else
    let items := db.items.filter (fun i => i.subCategoryId == some id)
    if items.isEmpty then .failure 404 "Items not found"
    else .payload 200 items

/-- The `totalAmount` expression of `editItem`
(`totalAmount: baseAmount - (discount || 0) || itemExists.totalAmount`,
src/src/controllers/Item.ts:313).  In JavaScript, when `baseAmount` is `undefined` the
subtraction yields `NaN`, which is falsy, and when the difference is exactly `0` it is falsy
too; in both cases `||` falls back to the stored `totalAmount`.  The prior stored
`baseAmount` and `discount` are never consulted. -/
def editTotalAmount (base discount : Option Int) (prior : Int) : Int :=
  match base with
  | none => prior
  | some bv => if bv - jsOrNum discount 0 == 0 then prior else bv - jsOrNum discount 0

/-- The `data` object of `editItem`'s `prisma.item.update` call; `itemExists` is the row
fetched before the update, whose `totalAmount` feeds the `||` fallback. -/
def editItemApply (b : ItemBody) (itemExists : Item) (x : Item) : Item :=
  { x with
    name := spreadStr b.name x.name
    image := spreadStr b.image x.image
    description := spreadStr b.description x.description
    taxApplicable := spreadBoolOpt b.taxApplicable x.taxApplicable
    tax := spreadNumOpt b.tax x.tax
    baseAmount := spreadNum b.baseAmount x.baseAmount
    discount := spreadNum b.discount x.discount
    totalAmount := editTotalAmount b.baseAmount b.discount itemExists.totalAmount
    subCategoryId := spreadStrOpt b.subCategory x.subCategoryId
    categoryId := spreadStrOpt b.category x.categoryId }

/-- `editItem`: guards `!id`, all-nine-fields-falsy, `taxApplicable === true && !tax`; a 404
existence check on the item, then on any truthy parent id; then the conditional-spread
update, with `totalAmount` given by `editTotalAmount`, returning the updated row with 200. -/
def editItem (id : String) (b : ItemBody) (db : DB) : Response Item × DB :=
  if id = "" then (.failure 400 "Id is required", db)
  else if !jsTruthyStr b.name && !jsTruthyStr b.image && !jsTruthyStr b.description
      && !jsTruthyBool b.taxApplicable && !jsTruthyNum b.tax && !jsTruthyNum b.baseAmount
      && !jsTruthyNum b.discount && !jsTruthyStr b.subCategory && !jsTruthyStr b.category then
    (.failure 400 "At least one field is required", db)
  else if strictEqTrue b.taxApplicable && !jsTruthyNum b.tax then
    (.failure 400 "Tax is required", db)
  else
    match db.items.find? (fun i => i.id == id) with
    | none => (.failure 404 "Item not found with given id", db)
    | some itemExists =>
      if jsTruthyStr b.subCategory
          && (db.subCategories.find? (fun s => s.id == b.subCategory.getD "")).isNone then
        (.failure 404 "SubCategory not found, unable to edit item", db)
      else if jsTruthyStr b.category
          && (db.categories.find? (fun c => c.id == b.category.getD "")).isNone then
        (.failure 404 "Category not found, unable to edit item", db)
      else
        (.payload 200 (editItemApply b itemExists itemExists),
         { db with
            items :=
              db.items.map (fun x => if x.id == id then editItemApply b itemExists x else x) })

/-- `searchItem`: requires a truthy `name` query, filters items by case-insensitive
substring match on the name, 404 `items not found` when nothing matches, else 200 with all
matches. -/
def searchItem (name : Option String) (db : DB) : Response (List Item) :=
  if !jsTruthyStr name then .failure 400 "Name is required"
  else
    let items := db.items.filter (fun i => containsInsensitive i.name (name.getD ""))
    if items.isEmpty then .failure 404 "items not found"
    else .payload 200 items

/-! ## Basic lemmas about the JavaScript-semantics helpers -/

theorem jsOrNum_zero (o : Option Int) : jsOrNum o 0 = o.getD 0 := by
  cases o with
  | none => rfl
  | some n =>
    by_cases hn : n = 0 <;> simp [jsOrNum, jsTruthyNum, hn]

/-- `editTotalAmount` restated with `Option.getD` and propositional equality. -/
theorem editTotalAmount_eq (base disc : Option Int) (prior : Int) :
    editTotalAmount base disc prior =
      match base with
      | none => prior
      | some bv => if bv - disc.getD 0 = 0 then prior else bv - disc.getD 0 := by
  cases base with
  | none => rfl
  | some bv => simp [editTotalAmount, jsOrNum_zero, beq_iff_eq]

theorem spreadStr_truthy (v : String) (old : String) (hv : v ≠ "") :
    spreadStr (some v) old = v := by
  simp [spreadStr, jsTruthyStr, hv]

theorem spreadStr_falsy (o : Option String) (old : String)
    (ho : o = none ∨ o = some "") : spreadStr o old = old := by
  rcases ho with h | h <;> simp [h, spreadStr, jsTruthyStr]

theorem spreadStrOpt_truthy (v : String) (old : Option String) (hv : v ≠ "") :
    spreadStrOpt (some v) old = some v := by
  simp [spreadStrOpt, jsTruthyStr, hv]

theorem spreadStrOpt_falsy (o : Option String) (old : Option String)
    (ho : o = none ∨ o = some "") : spreadStrOpt o old = old := by
  rcases ho with h | h <;> simp [h, spreadStrOpt, jsTruthyStr]

theorem spreadNum_truthy (v : Int) (old : Int) (hv : v ≠ 0) :
    spreadNum (some v) old = v := by
  simp [spreadNum, jsTruthyNum, hv]

theorem spreadNum_falsy (o : Option Int) (old : Int)
    (ho : o = none ∨ o = some 0) : spreadNum o old = old := by
  rcases ho with h | h <;> simp [h, spreadNum, jsTruthyNum]

theorem spreadNumOpt_truthy (v : Int) (old : Option Int) (hv : v ≠ 0) :
    spreadNumOpt (some v) old = some v := by
  simp [spreadNumOpt, jsTruthyNum, hv]

theorem spreadNumOpt_falsy (o : Option Int) (old : Option Int)
    (ho : o = none ∨ o = some 0) : spreadNumOpt o old = old := by
  rcases ho with h | h <;> simp [h, spreadNumOpt, jsTruthyNum]

theorem spreadBool_true (old : Bool) : spreadBool (some true) old = true := by
  simp [spreadBool, jsTruthyBool]

theorem spreadBool_not_true (o : Option Bool) (old : Bool)
    (ho : o ≠ some true) : spreadBool o old = old := by
  cases o with
  | none => rfl
  | some b => cases b with
    | true => exact absurd rfl ho
    | false => rfl

theorem spreadBoolOpt_true (old : Option Bool) : spreadBoolOpt (some true) old = some true := by
  simp [spreadBoolOpt, jsTruthyBool]

theorem spreadBoolOpt_not_true (o : Option Bool) (old : Option Bool)
    (ho : o ≠ some true) : spreadBoolOpt o old = old := by
  cases o with
  | none => rfl
  | some b => cases b with
    | true => exact absurd rfl ho
    | false => rfl

theorem list_isEmpty_iff_nil {α : Type} (l : List α) : l.isEmpty = true ↔ l = [] := by
  cases l <;> simp

/-- `find?` commutes with an update map `g` that rewrites only the rows matched by `p`
through an update `f` leaving the search predicate unchanged (the updates of this code
base never touch the primary key). -/
theorem find?_update_map {α : Type} (l : List α) (p : α → Bool) (f g : α → α)
    (hg : ∀ a, g a = if p a then f a else a) (hf : ∀ a, p (f a) = p a) :
    (l.map g).find? p = (l.find? p).map g := by
  induction l with
  | nil => rfl
  | cons a t ih =>
    by_cases hp : p a = true
    · have hga : p (g a) = true := by rw [hg a]; simp [hp, hf]
      simp [List.find?, hga, hp]
    · have hp' : p a = false := by
        cases h : p a
        · rfl
        · exact absurd h hp
      have hga : p (g a) = false := by rw [hg a]; simp [hp']
      simp [List.find?, hga, hp', ih]

/-! ## Shared concrete fixtures for witnesses and counterexamples -/

/-- A stored category: tax applicable at 5 percent. -/
def exCategory : Category :=
  { id := "c1"
    name := "Beverages"
    image := "b.png"
    description := "Drinks"
    taxApplicable := true
    tax := some 5
    taxType := none }

/-- A stored subcategory of `exCategory` with `taxApplicable = some true`, `tax = some 5`. -/
def exSub : SubCategory :=
  { id := "s1"
    name := "Hot"
    image := "h.png"
    description := "Hot drinks"
    taxApplicable := some true
    tax := some 5
    categoryId := "c1" }

/-- A stored item: `baseAmount 50`, `discount 20`, `totalAmount 30`. -/
def exItem : Item :=
  { id := "i1"
    name := "Green Tea"
    image := "g.png"
    description := "A tea"
    taxApplicable := some true
    tax := some 5
    baseAmount := 50
    discount := 20
    totalAmount := 30
    subCategoryId := none
    categoryId := some "c1" }

/-- The empty store. -/
def exEmptyDb : DB := { categories := [], subCategories := [], items := [] }

/-- A store holding `exCategory`, `exSub` and `exItem`. -/
def exDb : DB := { categories := [exCategory], subCategories := [exSub], items := [exItem] }

/-! ## Claim theorems -/

/-- C4: a category update whose body sets `taxApplicable` to `true` without supplying
`tax` or `taxType` is answered with a 400 validation error, and the store is unchanged
(the update is rejected before any persistence call). -/
theorem editCategory_taxTrue_missing_tax_rejected (id : String) (b : CategoryBody) (db : DB)
    (hta : b.taxApplicable = some true) (htax : b.tax = none) (htt : b.taxType = none) :
    (editCategory id b db).1.statusCode = 400 ∧ (editCategory id b db).2 = db := by
  unfold editCategory
  by_cases hid : id = ""
  · simp [hid, Response.statusCode]
  · simp [hid, hta, htax, htt, jsTruthyNum, jsTruthyStr, strictEqTrue, Response.statusCode]

/-- Witness for C4: updating `exCategory` to `taxApplicable := true` with no `tax`/`taxType`
is a 400 and leaves the store untouched. -/
theorem editCategory_taxTrue_missing_tax_rejected_witness :
    (editCategory "c1"
        { name := none, image := none, description := none,
          taxApplicable := some true, tax := none, taxType := none } exDb).1.statusCode = 400 ∧
    (editCategory "c1"
        { name := none, image := none, description := none,
          taxApplicable := some true, tax := none, taxType := none } exDb).2 = exDb :=
  editCategory_taxTrue_missing_tax_rejected "c1"
    { name := none, image := none, description := none,
      taxApplicable := some true, tax := none, taxType := none } exDb rfl rfl rfl

/-- C5: every list operation (categories, subcategories, items, and the filtered variants
by parent id) answers 404 when its result set is empty and 200 with all matching records
otherwise. -/
theorem list_operations_empty_404 (db : DB) (cid sid : String)
    (hc : cid ≠ "") (hs : sid ≠ "") :
    (db.categories = [] → getCategories db = .failure 404 "Categories not found") ∧
    (db.categories ≠ [] → getCategories db = .payload 200 db.categories) ∧
    (db.subCategories = [] → getSubCategories db = .failure 404 "SubCategories not found") ∧
    (db.subCategories ≠ [] → getSubCategories db = .payload 200 db.subCategories) ∧
    (db.items = [] → getItems db = .failure 404 "Items not found") ∧
    (db.items ≠ [] → getItems db = .payload 200 db.items) ∧
    (db.subCategories.filter (fun s => s.categoryId == cid) = [] →
      getSubCategoriesByCategory cid db = .failure 404 "SubCategories not found") ∧
    (db.subCategories.filter (fun s => s.categoryId == cid) ≠ [] →
      getSubCategoriesByCategory cid db =
        .payload 200 (db.subCategories.filter (fun s => s.categoryId == cid))) ∧
    (db.items.filter (fun i => i.categoryId == some cid) = [] →
      getItemsByCategory cid db = .failure 404 "Items not found") ∧
    (db.items.filter (fun i => i.categoryId == some cid) ≠ [] →
      getItemsByCategory cid db =
        .payload 200 (db.items.filter (fun i => i.categoryId == some cid))) ∧
    (db.items.filter (fun i => i.subCategoryId == some sid) = [] →
      getItemsBySubCategory sid db = .failure 404 "Items not found") ∧
    (db.items.filter (fun i => i.subCategoryId == some sid) ≠ [] →
      getItemsBySubCategory sid db =
        .payload 200 (db.items.filter (fun i => i.subCategoryId == some sid))) := by
  refine ⟨?_, ?_, ?_, ?_, ?_, ?_, ?_, ?_, ?_, ?_, ?_, ?_⟩ <;> intro h
  · simp [getCategories, h]
  · simp [getCategories, list_isEmpty_iff_nil, h]
  · simp [getSubCategories, h]
  · simp [getSubCategories, list_isEmpty_iff_nil, h]
  · simp [getItems, h]
  · simp [getItems, list_isEmpty_iff_nil, h]
  · simp [getSubCategoriesByCategory, hc, h]
  · simp [getSubCategoriesByCategory, hc, list_isEmpty_iff_nil, h]
  · simp [getItemsByCategory, hc, h]
  · simp [getItemsByCategory, hc, list_isEmpty_iff_nil, h]
  · simp [getItemsBySubCategory, hs, h]
  · simp [getItemsBySubCategory, hs, list_isEmpty_iff_nil, h]

/-- Witness for C5: on the empty store every list is a 404; on `exDb` the category list,
the item list, and the filtered lists return the stored rows with 200. -/
theorem list_operations_empty_404_witness :
    (getCategories exEmptyDb = .failure 404 "Categories not found") ∧
    (getItems exEmptyDb = .failure 404 "Items not found") ∧
    (getCategories exDb = .payload 200 [exCategory]) ∧
    (getItemsByCategory "c1" exDb = .payload 200 [exItem]) := by
  have hempty := list_operations_empty_404 exEmptyDb "c1" "s1" (by decide) (by decide)
  have hfull := list_operations_empty_404 exDb "c1" "s1" (by decide) (by decide)
  refine ⟨hempty.1 rfl, hempty.2.2.2.2.1 rfl, ?_, ?_⟩
  · exact hfull.2.1 (by decide)
  · have := hfull.2.2.2.2.2.2.2.2.2.1 (by decide)
    simpa using this

/-- C10: an item update whose body carries only falsy values (absent keys, `false`, `0`,
empty strings) is rejected with 400 `At least one field is required` and the store is
unchanged, even when fields such as `taxApplicable: false` or `discount: 0` were supplied. -/
theorem editItem_falsy_body_rejected (id : String) (b : ItemBody) (db : DB)
    (hid : id ≠ "")
    (hname : jsTruthyStr b.name = false) (himg : jsTruthyStr b.image = false)
    (hdesc : jsTruthyStr b.description = false) (hta : jsTruthyBool b.taxApplicable = false)
    (htax : jsTruthyNum b.tax = false) (hbase : jsTruthyNum b.baseAmount = false)
    (hdisc : jsTruthyNum b.discount = false) (hsub : jsTruthyStr b.subCategory = false)
    (hcat : jsTruthyStr b.category = false) :
    editItem id b db = (.failure 400 "At least one field is required", db) := by
  unfold editItem
  simp [hid, hname, himg, hdesc, hta, htax, hbase, hdisc, hsub, hcat]

/-- Witness for C10: a body supplying only `taxApplicable: false` and `discount: 0` — two
supplied, falsy fields — is rejected with 400 and `exDb` is unchanged. -/
theorem editItem_falsy_body_rejected_witness :
    editItem "i1"
        { name := none, image := none, description := none, taxApplicable := some false,
          tax := none, baseAmount := none, discount := some 0, subCategory := none,
          category := none } exDb
      = (.failure 400 "At least one field is required", exDb) :=
  editItem_falsy_body_rejected "i1"
    { name := none, image := none, description := none, taxApplicable := some false,
      tax := none, baseAmount := none, discount := some 0, subCategory := none,
      category := none } exDb
    (by decide) rfl rfl rfl rfl rfl (by decide) (by decide) rfl rfl

/-- C2: every successful item creation stores `discount` as the supplied value when supplied
and `0` otherwise, and stores `totalAmount = baseAmount - discount` for that discount. -/
theorem createItem_discount_totalAmount (b : ItemBody) (newId : String) (db : DB)
    (item : Item) (h : (createItem b newId db).1 = .payload 201 item) :
    item.discount = b.discount.getD 0 ∧
    ∀ bv : Int, b.baseAmount = some bv → item.totalAmount = bv - b.discount.getD 0 := by
  unfold createItem at h
  split at h
  · exact absurd h (by simp)
  · split at h
    · exact absurd h (by simp)
    · split at h
      · exact absurd h (by simp)
      · simp only [Response.payload.injEq] at h
        obtain ⟨-, hi⟩ := h
        subst hi
        refine ⟨by simp [jsOrNum_zero], ?_⟩
        intro bv hbv
        simp [hbv, jsOrNum_zero]

/-- Witness for C2: creating an item with `baseAmount 100`, `discount 20` under `exCategory`
stores `discount 20` and `totalAmount 80`. -/
theorem createItem_discount_totalAmount_witness :
    ((createItem
        { name := some "Tea", image := some "t.png", description := some "hot",
          taxApplicable := some true, tax := some 5, baseAmount := some 100,
          discount := some 20, subCategory := none, category := some "c1" }
        "i9" exDb).1 = .payload 201
          { id := "i9", name := "Tea", image := "t.png", description := "hot",
            taxApplicable := some true, tax := some 5, baseAmount := 100, discount := 20,
            totalAmount := 80, subCategoryId := none, categoryId := some "c1" }) ∧
    (20 : Int) = (some (20 : Int)).getD 0 ∧ (80 : Int) = 100 - (some (20 : Int)).getD 0 := by
  have h := createItem_discount_totalAmount
    { name := some "Tea", image := some "t.png", description := some "hot",
      taxApplicable := some true, tax := some 5, baseAmount := some 100,
      discount := some 20, subCategory := none, category := some "c1" }
    "i9" exDb
    { id := "i9", name := "Tea", image := "t.png", description := "hot",
      taxApplicable := some true, tax := some 5, baseAmount := 100, discount := 20,
      totalAmount := 80, subCategoryId := none, categoryId := some "c1" }
    (by decide)
  exact ⟨by decide, h.1.symm, (h.2 100 rfl).symm⟩

/-- C3: a subcategory created without `taxApplicable` and `tax` in the body, under a parent
category that resolves, stores the parent's `taxApplicable` and `tax` as they are at
creation time. -/
theorem createSubCategory_inherits_parent_tax (b : SubCategoryBody) (newId : String)
    (db : DB) (cat : Category) (s : SubCategory)
    (hta : b.taxApplicable = none) (htax : b.tax = none)
    (hcat : db.categories.find? (fun c => c.id == b.categoryId.getD "") = some cat)
    (h : (createSubCategory b newId db).1 = .payload 200 s) :
    s.taxApplicable = some cat.taxApplicable ∧ s.tax = cat.tax := by
  unfold createSubCategory at h
  split at h
  · exact absurd h (by simp)
  · rw [hcat] at h
    simp only [Response.payload.injEq] at h
    obtain ⟨-, hs⟩ := h
    subst hs
    simp [hta, htax, jsOrBool, jsOrNumOpt, jsTruthyBool, jsTruthyNum]

/-- Witness for C3: creating `Cold` under `exCategory` without tax fields copies
`taxApplicable = some true` and `tax = some 5` from the parent. -/
theorem createSubCategory_inherits_parent_tax_witness :
    ((createSubCategory
        { name := some "Cold", image := some "c.png", description := some "Cold drinks",
          taxApplicable := none, tax := none, categoryId := some "c1" } "s9" exDb).1
      = .payload 200
          { id := "s9", name := "Cold", image := "c.png", description := "Cold drinks",
            taxApplicable := some true, tax := some 5, categoryId := "c1" }) ∧
    (some true = some exCategory.taxApplicable) ∧ ((some 5 : Option Int) = exCategory.tax) := by
  have h := createSubCategory_inherits_parent_tax
    { name := some "Cold", image := some "c.png", description := some "Cold drinks",
      taxApplicable := none, tax := none, categoryId := some "c1" }
    "s9" exDb exCategory
    { id := "s9", name := "Cold", image := "c.png", description := "Cold drinks",
      taxApplicable := some true, tax := some 5, categoryId := "c1" }
    rfl rfl (by decide) (by decide)
  exact ⟨by decide, h.1, h.2⟩

/-- C9: a subcategory creation that explicitly supplies `taxApplicable: false` or `tax: 0`
stores the parent category's value instead of the supplied falsy value, because the
defaulting uses `||` (truthiness), not key presence. -/
theorem createSubCategory_falsy_values_overridden (b : SubCategoryBody) (newId : String)
    (db : DB) (cat : Category) (s : SubCategory)
    (hcat : db.categories.find? (fun c => c.id == b.categoryId.getD "") = some cat)
    (h : (createSubCategory b newId db).1 = .payload 200 s) :
    (b.taxApplicable = some false → s.taxApplicable = some cat.taxApplicable) ∧
    (b.tax = some 0 → s.tax = cat.tax) := by
  unfold createSubCategory at h
  split at h
  · exact absurd h (by simp)
  · rw [hcat] at h
    simp only [Response.payload.injEq] at h
    obtain ⟨-, hs⟩ := h
    subst hs
    constructor
    · intro hta
      simp [hta, jsOrBool, jsTruthyBool]
    · intro htax
      simp [htax, jsOrNumOpt, jsTruthyNum]

/-- Witness for C9: supplying `taxApplicable: false` and `tax: 0` under `exCategory`
(whose values are `true` and `5`) stores `some true` and `some 5`, not the supplied values. -/
theorem createSubCategory_falsy_values_overridden_witness :
    ((createSubCategory
        { name := some "Iced", image := some "i.png", description := some "Iced drinks",
          taxApplicable := some false, tax := some 0, categoryId := some "c1" } "s8" exDb).1
      = .payload 200
          { id := "s8", name := "Iced", image := "i.png", description := "Iced drinks",
            taxApplicable := some true, tax := some 5, categoryId := "c1" }) ∧
    (some true = some exCategory.taxApplicable) ∧ ((some 5 : Option Int) = exCategory.tax) := by
  have h := createSubCategory_falsy_values_overridden
    { name := some "Iced", image := some "i.png", description := some "Iced drinks",
      taxApplicable := some false, tax := some 0, categoryId := some "c1" }
    "s8" exDb exCategory
    { id := "s8", name := "Iced", image := "i.png", description := "Iced drinks",
      taxApplicable := some true, tax := some 5, categoryId := "c1" }
    (by decide) (by decide)
  exact ⟨by decide, h.1 rfl, h.2 rfl⟩

/-- C6: item creation is a 400 validation failure whenever `name`, `image`, `description`,
`taxApplicable` or `baseAmount` is absent, or neither parent identity is supplied; and once
those validations pass, a supplied parent identity that does not resolve is a 404 with no
item created (store unchanged). -/
theorem createItem_validation (b : ItemBody) (newId : String) (db : DB) :
    ((b.name = none ∨ b.image = none ∨ b.description = none ∨ b.taxApplicable = none ∨
        b.baseAmount = none ∨ (b.subCategory = none ∧ b.category = none)) →
      createItem b newId db = (.failure 400 "All fields are required", db)) ∧
    (jsTruthyStr b.name = true → jsTruthyStr b.image = true →
      jsTruthyStr b.description = true → b.taxApplicable.isNone = false →
      jsTruthyNum b.baseAmount = true →
      ∀ s0 : String, b.subCategory = some s0 → s0 ≠ "" →
        db.subCategories.find? (fun x => x.id == s0) = none →
        createItem b newId db = (.failure 404 "SubCategory not found, unable to create item", db)) ∧
    (jsTruthyStr b.name = true → jsTruthyStr b.image = true →
      jsTruthyStr b.description = true → b.taxApplicable.isNone = false →
      jsTruthyNum b.baseAmount = true →
      (jsTruthyStr b.subCategory = true →
        (db.subCategories.find? (fun x => x.id == b.subCategory.getD "")).isNone = false) →
      ∀ c0 : String, b.category = some c0 → c0 ≠ "" →
        db.categories.find? (fun x => x.id == c0) = none →
        createItem b newId db = (.failure 404 "Category not found, unable to create item", db)) := by
  refine ⟨?_, ?_, ?_⟩
  · intro h
    rcases h with h | h | h | h | h | ⟨h1, h2⟩
    · simp [createItem, h, jsTruthyStr]
    · simp [createItem, h, jsTruthyStr]
    · simp [createItem, h, jsTruthyStr]
    · simp [createItem, h]
    · simp [createItem, h, jsTruthyNum]
    · simp [createItem, h1, h2, jsTruthyStr]
  · intro hn hi hd hta hb s0 hsub hs0 hfind
    have hs : jsTruthyStr (some s0) = true := by simp [jsTruthyStr, hs0]
    have hta' : ¬b.taxApplicable = none := fun hno => by simp [hno] at hta
    simp [createItem, hn, hi, hd, hta, hta', hb, hsub, hs, hfind]
  · intro hn hi hd hta hb hsubok c0 hcat hc0 hfind
    have hcs : jsTruthyStr (some c0) = true := by simp [jsTruthyStr, hc0]
    have hta' : ¬b.taxApplicable = none := fun hno => by simp [hno] at hta
    by_cases hsub : jsTruthyStr b.subCategory = true
    · have hnn := hsubok hsub
      simp [createItem, hn, hi, hd, hta, hta', hb, hsub, hnn, hcat, hcs, hfind]
    · have hsub' : jsTruthyStr b.subCategory = false := by
        cases h : jsTruthyStr b.subCategory
        · rfl
        · exact absurd h hsub
      simp [createItem, hn, hi, hd, hta, hta', hb, hsub', hcat, hcs, hfind]

/-- Witness for C6: a body missing `name` is a 400; a complete body whose `subCategory`
id `zz` does not resolve in `exDb` is a 404; a complete body whose `category` id `zz` does
not resolve is a 404.  The store is unchanged in all three cases. -/
theorem createItem_validation_witness :
    (createItem
        { name := none, image := some "t.png", description := some "hot",
          taxApplicable := some true, tax := some 5, baseAmount := some 100,
          discount := none, subCategory := none, category := some "c1" } "ia" exDb
      = (.failure 400 "All fields are required", exDb)) ∧
    (createItem
        { name := some "Tea", image := some "t.png", description := some "hot",
          taxApplicable := some true, tax := some 5, baseAmount := some 100,
          discount := none, subCategory := some "zz", category := none } "ib" exDb
      = (.failure 404 "SubCategory not found, unable to create item", exDb)) ∧
    (createItem
        { name := some "Tea", image := some "t.png", description := some "hot",
          taxApplicable := some true, tax := some 5, baseAmount := some 100,
          discount := none, subCategory := none, category := some "zz" } "ic" exDb
      = (.failure 404 "Category not found, unable to create item", exDb)) := by
  refine ⟨?_, ?_, ?_⟩
  · exact (createItem_validation
      { name := none, image := some "t.png", description := some "hot",
        taxApplicable := some true, tax := some 5, baseAmount := some 100,
        discount := none, subCategory := none, category := some "c1" } "ia" exDb).1
      (Or.inl rfl)
  · exact (createItem_validation
      { name := some "Tea", image := some "t.png", description := some "hot",
        taxApplicable := some true, tax := some 5, baseAmount := some 100,
        discount := none, subCategory := some "zz", category := none } "ib" exDb).2.1
      rfl rfl rfl rfl rfl "zz" rfl (by decide) (by decide)
  · exact (createItem_validation
      { name := some "Tea", image := some "t.png", description := some "hot",
        taxApplicable := some true, tax := some 5, baseAmount := some 100,
        discount := none, subCategory := none, category := some "zz" } "ic" exDb).2.2
      rfl rfl rfl rfl rfl (by simp [jsTruthyStr]) "zz" rfl (by decide) (by decide)

/-- C1 (amended): on a successful item update, the stored `totalAmount` is
`baseAmount - (discount or 0)` computed from the request body alone when `baseAmount` is
supplied and that difference is nonzero; in every other case — `baseAmount` absent (even
with `discount` supplied), or the difference exactly `0` — the prior stored `totalAmount`
is kept.  The prior stored `baseAmount`/`discount` are never consulted. -/
theorem editItem_totalAmount_recompute (id : String) (b : ItemBody) (db : DB) (it : Item)
    (hid : id ≠ "")
    (hAny : jsTruthyStr b.name = true ∨ jsTruthyStr b.image = true ∨
      jsTruthyStr b.description = true ∨ jsTruthyBool b.taxApplicable = true ∨
      jsTruthyNum b.tax = true ∨ jsTruthyNum b.baseAmount = true ∨
      jsTruthyNum b.discount = true ∨ jsTruthyStr b.subCategory = true ∨
      jsTruthyStr b.category = true)
    (htax : strictEqTrue b.taxApplicable = false ∨ jsTruthyNum b.tax = true)
    (hfind : db.items.find? (fun i => i.id == id) = some it)
    (hsub : jsTruthyStr b.subCategory = true →
      (db.subCategories.find? (fun s => s.id == b.subCategory.getD "")).isNone = false)
    (hcat : jsTruthyStr b.category = true →
      (db.categories.find? (fun c => c.id == b.category.getD "")).isNone = false) :
    (editItem id b db).1 = .payload 200 (editItemApply b it it) ∧
    (editItem id b db).2.items.find? (fun i => i.id == id)
      = some (editItemApply b it it) ∧
    (editItemApply b it it).totalAmount =
      (match b.baseAmount with
       | none => it.totalAmount
       | some bv =>
         if bv - b.discount.getD 0 = 0 then it.totalAmount else bv - b.discount.getD 0) := by
  have hG2F : (!jsTruthyStr b.name && !jsTruthyStr b.image && !jsTruthyStr b.description
      && !jsTruthyBool b.taxApplicable && !jsTruthyNum b.tax && !jsTruthyNum b.baseAmount
      && !jsTruthyNum b.discount && !jsTruthyStr b.subCategory
      && !jsTruthyStr b.category) = false := by
    rcases hAny with h|h|h|h|h|h|h|h|h <;> simp [h]
  have htaxF : (strictEqTrue b.taxApplicable && !jsTruthyNum b.tax) = false := by
    rcases htax with h|h <;> simp [h]
  have hsubF : (jsTruthyStr b.subCategory
      && (db.subCategories.find? (fun s => s.id == b.subCategory.getD "")).isNone) = false := by
    cases hbs : jsTruthyStr b.subCategory
    · simp
    · simp [hsub hbs]
  have hcatF : (jsTruthyStr b.category
      && (db.categories.find? (fun c => c.id == b.category.getD "")).isNone) = false := by
    cases hbc : jsTruthyStr b.category
    · simp
    · simp [hcat hbc]
  refine ⟨?_, ?_, ?_⟩
  · simp [editItem, hid, hG2F, htaxF, hfind, hsubF, hcatF]
  · have hstate : (editItem id b db).2
        = { db with
            items := db.items.map (fun x => if x.id == id then editItemApply b it x else x) } := by
      simp [editItem, hid, hG2F, htaxF, hfind, hsubF, hcatF]
    have hmap := find?_update_map db.items (fun i => i.id == id) (editItemApply b it)
      (fun x => if x.id == id then editItemApply b it x else x) (fun a => rfl) (fun a => rfl)
    rw [hstate]
    show (db.items.map (fun x => if x.id == id then editItemApply b it x else x)).find?
        (fun i => i.id == id) = some (editItemApply b it it)
    rw [hmap, hfind]
    have hit := List.find?_some hfind
    simp [hit]
    intro hne
    exact absurd (eq_of_beq hit) hne
  · simp [editItemApply, editTotalAmount_eq]

/-- A body supplying only `discount: 10`. -/
def exDiscountOnlyBody : ItemBody :=
  { name := none
    image := none
    description := none
    taxApplicable := none
    tax := none
    baseAmount := none
    discount := some 10
    subCategory := none
    category := none }

/-- Counterexample to C1 as stated: updating `exItem` (stored `baseAmount 50`,
`discount 20`, `totalAmount 30`) with a body supplying only `discount: 10` succeeds with
200, yet the stored `totalAmount` stays `30`; the claim's formula — prior `baseAmount`
minus the newly supplied `discount` — demands `50 - 10 = 40`. -/
theorem editItem_totalAmount_claim_counterexample :
    (editItem "i1" exDiscountOnlyBody exDb).1.statusCode = 200 ∧
    ((editItem "i1" exDiscountOnlyBody exDb).2.items.map Item.totalAmount = [30]) ∧
    exItem.baseAmount = 50 ∧ exDiscountOnlyBody.discount = some 10 ∧
    ((30 : Int) ≠ 50 - 10) := by decide

/-- A body supplying `baseAmount: 100` and `discount: 30`. -/
def exEditAmountBody : ItemBody :=
  { name := none
    image := none
    description := none
    taxApplicable := none
    tax := none
    baseAmount := some 100
    discount := some 30
    subCategory := none
    category := none }

/-- Witness for the amended C1: updating `exItem` with `baseAmount 100`, `discount 30`
succeeds and stores `totalAmount 70`. -/
theorem editItem_totalAmount_recompute_witness :
    (editItem "i1" exEditAmountBody exDb).1
      = .payload 200 (editItemApply exEditAmountBody exItem exItem) ∧
    (editItem "i1" exEditAmountBody exDb).2.items.find? (fun i => i.id == "i1")
      = some (editItemApply exEditAmountBody exItem exItem) ∧
    (editItemApply exEditAmountBody exItem exItem).totalAmount = 70 := by
  have h := editItem_totalAmount_recompute "i1" exEditAmountBody exDb exItem
    (by decide)
    (Or.inr (Or.inr (Or.inr (Or.inr (Or.inr (Or.inl (by decide)))))))
    (Or.inl (by decide)) (by decide) (by decide) (by decide)
  exact ⟨h.1, h.2.1, by decide⟩

/-- A subcategory-update body supplying a truthy `name` and the falsy `taxApplicable: false`. -/
def exSubEditBody : SubCategoryBody :=
  { name := some "New"
    image := none
    description := none
    taxApplicable := some false
    tax := none
    categoryId := none }

/-- Counterexample to C7 as stated: updating `exSub` (stored `taxApplicable = some true`)
with `name: "New", taxApplicable: false` succeeds with 200, yet the stored `taxApplicable`
stays `some true` — the supplied value `false` is dropped by the truthiness spread. -/
theorem partial_update_falsy_counterexample :
    (editSubCategory "s1" exSubEditBody exDb).1.statusCode = 200 ∧
    ((editSubCategory "s1" exSubEditBody exDb).2.subCategories.map SubCategory.taxApplicable
      = [some true]) ∧
    exSubEditBody.taxApplicable = some false ∧
    (some true ≠ (some false : Option Bool)) := by decide

/-- C7 (amended): in category and subcategory partial updates, every field supplied with a
truthy value (nonempty string, `true`, nonzero number) is stored as supplied, and every
field that is absent or supplied with a falsy value (`""`, `false`, `0`) retains its prior
stored value. -/
theorem partial_update_truthy_fields :
    (∀ (id : String) (b : CategoryBody) (db : DB) (c : Category),
      id ≠ "" →
      (jsTruthyStr b.name = true ∨ jsTruthyStr b.image = true ∨
        jsTruthyStr b.description = true ∨ b.taxApplicable.isNone = false ∨
        jsTruthyNum b.tax = true ∨ jsTruthyStr b.taxType = true) →
      (strictEqTrue b.taxApplicable = false ∨ jsTruthyNum b.tax = true ∨
        jsTruthyStr b.taxType = true) →
      db.categories.find? (fun x => x.id == id) = some c →
      ((editCategory id b db).1 = .payload 200 (editCategoryApply b c) ∧
       (editCategory id b db).2.categories.find? (fun x => x.id == id)
         = some (editCategoryApply b c) ∧
       (∀ v, b.name = some v → v ≠ "" → (editCategoryApply b c).name = v) ∧
       ((b.name = none ∨ b.name = some "") → (editCategoryApply b c).name = c.name) ∧
       (∀ v, b.image = some v → v ≠ "" → (editCategoryApply b c).image = v) ∧
       ((b.image = none ∨ b.image = some "") → (editCategoryApply b c).image = c.image) ∧
       (∀ v, b.description = some v → v ≠ "" → (editCategoryApply b c).description = v) ∧
       ((b.description = none ∨ b.description = some "") →
         (editCategoryApply b c).description = c.description) ∧
       (b.taxApplicable = some true → (editCategoryApply b c).taxApplicable = true) ∧
       (b.taxApplicable ≠ some true →
         (editCategoryApply b c).taxApplicable = c.taxApplicable) ∧
       (∀ v, b.tax = some v → v ≠ 0 → (editCategoryApply b c).tax = some v) ∧
       ((b.tax = none ∨ b.tax = some 0) → (editCategoryApply b c).tax = c.tax) ∧
       (∀ v, b.taxType = some v → v ≠ "" → (editCategoryApply b c).taxType = some v) ∧
       ((b.taxType = none ∨ b.taxType = some "") →
         (editCategoryApply b c).taxType = c.taxType))) ∧
    (∀ (id : String) (b : SubCategoryBody) (db : DB) (s : SubCategory),
      id ≠ "" →
      (jsTruthyStr b.name = true ∨ jsTruthyStr b.image = true ∨
        jsTruthyStr b.description = true ∨ b.taxApplicable.isNone = false ∨
        jsTruthyNum b.tax = true) →
      db.subCategories.find? (fun x => x.id == id) = some s →
      ((editSubCategory id b db).1 = .payload 200 (editSubCategoryApply b s) ∧
       (editSubCategory id b db).2.subCategories.find? (fun x => x.id == id)
         = some (editSubCategoryApply b s) ∧
       (∀ v, b.name = some v → v ≠ "" → (editSubCategoryApply b s).name = v) ∧
       ((b.name = none ∨ b.name = some "") → (editSubCategoryApply b s).name = s.name) ∧
       (∀ v, b.image = some v → v ≠ "" → (editSubCategoryApply b s).image = v) ∧
       ((b.image = none ∨ b.image = some "") → (editSubCategoryApply b s).image = s.image) ∧
       (∀ v, b.description = some v → v ≠ "" → (editSubCategoryApply b s).description = v) ∧
       ((b.description = none ∨ b.description = some "") →
         (editSubCategoryApply b s).description = s.description) ∧
       (b.taxApplicable = some true →
         (editSubCategoryApply b s).taxApplicable = some true) ∧
       (b.taxApplicable ≠ some true →
         (editSubCategoryApply b s).taxApplicable = s.taxApplicable) ∧
       (∀ v, b.tax = some v → v ≠ 0 → (editSubCategoryApply b s).tax = some v) ∧
       ((b.tax = none ∨ b.tax = some 0) → (editSubCategoryApply b s).tax = s.tax))) ∧
    (∀ (id : String) (b : ItemBody) (db : DB) (it : Item),
      id ≠ "" →
      (jsTruthyStr b.name = true ∨ jsTruthyStr b.image = true ∨
        jsTruthyStr b.description = true ∨ jsTruthyBool b.taxApplicable = true ∨
        jsTruthyNum b.tax = true ∨ jsTruthyNum b.baseAmount = true ∨
        jsTruthyNum b.discount = true ∨ jsTruthyStr b.subCategory = true ∨
        jsTruthyStr b.category = true) →
      (strictEqTrue b.taxApplicable = false ∨ jsTruthyNum b.tax = true) →
      db.items.find? (fun x => x.id == id) = some it →
      (jsTruthyStr b.subCategory = true →
        (db.subCategories.find? (fun s => s.id == b.subCategory.getD "")).isNone = false) →
      (jsTruthyStr b.category = true →
        (db.categories.find? (fun c => c.id == b.category.getD "")).isNone = false) →
      ((editItem id b db).1 = .payload 200 (editItemApply b it it) ∧
       (editItem id b db).2.items.find? (fun x => x.id == id)
         = some (editItemApply b it it) ∧
       (∀ v, b.name = some v → v ≠ "" → (editItemApply b it it).name = v) ∧
       ((b.name = none ∨ b.name = some "") → (editItemApply b it it).name = it.name) ∧
       (∀ v, b.image = some v → v ≠ "" → (editItemApply b it it).image = v) ∧
       ((b.image = none ∨ b.image = some "") → (editItemApply b it it).image = it.image) ∧
       (∀ v, b.description = some v → v ≠ "" → (editItemApply b it it).description = v) ∧
       ((b.description = none ∨ b.description = some "") →
         (editItemApply b it it).description = it.description) ∧
       (b.taxApplicable = some true → (editItemApply b it it).taxApplicable = some true) ∧
       (b.taxApplicable ≠ some true →
         (editItemApply b it it).taxApplicable = it.taxApplicable) ∧
       (∀ v, b.tax = some v → v ≠ 0 → (editItemApply b it it).tax = some v) ∧
       ((b.tax = none ∨ b.tax = some 0) → (editItemApply b it it).tax = it.tax) ∧
       (∀ v, b.baseAmount = some v → v ≠ 0 → (editItemApply b it it).baseAmount = v) ∧
       ((b.baseAmount = none ∨ b.baseAmount = some 0) →
         (editItemApply b it it).baseAmount = it.baseAmount) ∧
       (∀ v, b.discount = some v → v ≠ 0 → (editItemApply b it it).discount = v) ∧
       ((b.discount = none ∨ b.discount = some 0) →
         (editItemApply b it it).discount = it.discount) ∧
       (∀ v, b.subCategory = some v → v ≠ "" →
         (editItemApply b it it).subCategoryId = some v) ∧
       ((b.subCategory = none ∨ b.subCategory = some "") →
         (editItemApply b it it).subCategoryId = it.subCategoryId) ∧
       (∀ v, b.category = some v → v ≠ "" →
         (editItemApply b it it).categoryId = some v) ∧
       ((b.category = none ∨ b.category = some "") →
         (editItemApply b it it).categoryId = it.categoryId) ∧
       (editItemApply b it it).totalAmount =
         (match b.baseAmount with
          | none => it.totalAmount
          | some bv =>
            if bv - b.discount.getD 0 = 0 then it.totalAmount
            else bv - b.discount.getD 0))) := by
  refine ⟨?_, ?_, ?_⟩
  · intro id b db c hid hAny htax hfind
    have hG2F : (!jsTruthyStr b.name && !jsTruthyStr b.image && !jsTruthyStr b.description
        && b.taxApplicable.isNone && !jsTruthyNum b.tax && !jsTruthyStr b.taxType) = false := by
      rcases hAny with h|h|h|h|h|h <;> simp [h]
    have htaxF : (strictEqTrue b.taxApplicable
        && (!jsTruthyNum b.tax && !jsTruthyStr b.taxType)) = false := by
      rcases htax with h|h|h <;> simp [h]
    refine ⟨?_, ?_, ?_, ?_, ?_, ?_, ?_, ?_, ?_, ?_, ?_, ?_, ?_, ?_⟩
    · simp [editCategory, hid, hG2F, htaxF, hfind]
    · have hstate : (editCategory id b db).2
          = { db with
              categories :=
                db.categories.map (fun x => if x.id == id then editCategoryApply b x else x) } := by
        simp [editCategory, hid, hG2F, htaxF, hfind]
      have hmap := find?_update_map db.categories (fun x => x.id == id) (editCategoryApply b)
        (fun x => if x.id == id then editCategoryApply b x else x) (fun a => rfl) (fun a => rfl)
      rw [hstate]
      show (db.categories.map (fun x => if x.id == id then editCategoryApply b x else x)).find?
          (fun x => x.id == id) = some (editCategoryApply b c)
      rw [hmap, hfind]
      have hit := List.find?_some hfind
      simp [hit]
      intro hne
      exact absurd (eq_of_beq hit) hne
    · intro v hv hne
      simp [editCategoryApply, hv, spreadStr_truthy _ _ hne]
    · intro hv
      simp [editCategoryApply, spreadStr_falsy _ _ hv]
    · intro v hv hne
      simp [editCategoryApply, hv, spreadStr_truthy _ _ hne]
    · intro hv
      simp [editCategoryApply, spreadStr_falsy _ _ hv]
    · intro v hv hne
      simp [editCategoryApply, hv, spreadStr_truthy _ _ hne]
    · intro hv
      simp [editCategoryApply, spreadStr_falsy _ _ hv]
    · intro hv
      simp [editCategoryApply, hv, spreadBool_true]
    · intro hv
      simp [editCategoryApply, spreadBool_not_true _ _ hv]
    · intro v hv hne
      simp [editCategoryApply, hv, spreadNumOpt_truthy _ _ hne]
    · intro hv
      simp [editCategoryApply, spreadNumOpt_falsy _ _ hv]
    · intro v hv hne
      simp [editCategoryApply, hv, spreadStrOpt_truthy _ _ hne]
    · intro hv
      simp [editCategoryApply, spreadStrOpt_falsy _ _ hv]
  · intro id b db s hid hAny hfind
    have hG2F : (!jsTruthyStr b.name && !jsTruthyStr b.image && !jsTruthyStr b.description
        && b.taxApplicable.isNone && !jsTruthyNum b.tax) = false := by
      rcases hAny with h|h|h|h|h <;> simp [h]
    refine ⟨?_, ?_, ?_, ?_, ?_, ?_, ?_, ?_, ?_, ?_, ?_, ?_⟩
    · simp [editSubCategory, hid, hG2F, hfind]
    · have hstate : (editSubCategory id b db).2
          = { db with
              subCategories :=
                db.subCategories.map
                  (fun x => if x.id == id then editSubCategoryApply b x else x) } := by
        simp [editSubCategory, hid, hG2F, hfind]
      have hmap := find?_update_map db.subCategories (fun x => x.id == id)
        (editSubCategoryApply b)
        (fun x => if x.id == id then editSubCategoryApply b x else x) (fun a => rfl)
        (fun a => rfl)
      rw [hstate]
      show (db.subCategories.map
          (fun x => if x.id == id then editSubCategoryApply b x else x)).find?
          (fun x => x.id == id) = some (editSubCategoryApply b s)
      rw [hmap, hfind]
      have hit := List.find?_some hfind
      simp [hit]
      intro hne
      exact absurd (eq_of_beq hit) hne
    · intro v hv hne
      simp [editSubCategoryApply, hv, spreadStr_truthy _ _ hne]
    · intro hv
      simp [editSubCategoryApply, spreadStr_falsy _ _ hv]
    · intro v hv hne
      simp [editSubCategoryApply, hv, spreadStr_truthy _ _ hne]
    · intro hv
      simp [editSubCategoryApply, spreadStr_falsy _ _ hv]
    · intro v hv hne
      simp [editSubCategoryApply, hv, spreadStr_truthy _ _ hne]
    · intro hv
      simp [editSubCategoryApply, spreadStr_falsy _ _ hv]
    · intro hv
      simp [editSubCategoryApply, hv, spreadBoolOpt_true]
    · intro hv
      simp [editSubCategoryApply, spreadBoolOpt_not_true _ _ hv]
    · intro v hv hne
      simp [editSubCategoryApply, hv, spreadNumOpt_truthy _ _ hne]
    · intro hv
      simp [editSubCategoryApply, spreadNumOpt_falsy _ _ hv]
  · intro id b db it hid hAny htax hfind hsub hcat
    have hG2F : (!jsTruthyStr b.name && !jsTruthyStr b.image && !jsTruthyStr b.description
        && !jsTruthyBool b.taxApplicable && !jsTruthyNum b.tax && !jsTruthyNum b.baseAmount
        && !jsTruthyNum b.discount && !jsTruthyStr b.subCategory
        && !jsTruthyStr b.category) = false := by
      rcases hAny with h|h|h|h|h|h|h|h|h <;> simp [h]
    have htaxF : (strictEqTrue b.taxApplicable && !jsTruthyNum b.tax) = false := by
      rcases htax with h|h <;> simp [h]
    have hsubF : (jsTruthyStr b.subCategory
        && (db.subCategories.find? (fun s => s.id == b.subCategory.getD "")).isNone)
        = false := by
      cases hbs : jsTruthyStr b.subCategory
      · simp
      · simp [hsub hbs]
    have hcatF : (jsTruthyStr b.category
        && (db.categories.find? (fun c => c.id == b.category.getD "")).isNone) = false := by
      cases hbc : jsTruthyStr b.category
      · simp
      · simp [hcat hbc]
    refine ⟨?_, ?_, ?_, ?_, ?_, ?_, ?_, ?_, ?_, ?_, ?_, ?_, ?_, ?_, ?_, ?_, ?_, ?_, ?_, ?_,
      ?_⟩
    · simp [editItem, hid, hG2F, htaxF, hfind, hsubF, hcatF]
    · have hstate : (editItem id b db).2
          = { db with
              items := db.items.map (fun x => if x.id == id then editItemApply b it x else x) } := by
        simp [editItem, hid, hG2F, htaxF, hfind, hsubF, hcatF]
      have hmap := find?_update_map db.items (fun x => x.id == id) (editItemApply b it)
        (fun x => if x.id == id then editItemApply b it x else x) (fun a => rfl) (fun a => rfl)
      rw [hstate]
      show (db.items.map (fun x => if x.id == id then editItemApply b it x else x)).find?
          (fun x => x.id == id) = some (editItemApply b it it)
      rw [hmap, hfind]
      have hit := List.find?_some hfind
      simp [hit]
      intro hne
      exact absurd (eq_of_beq hit) hne
    · intro v hv hne
      simp [editItemApply, hv, spreadStr_truthy _ _ hne]
    · intro hv
      simp [editItemApply, spreadStr_falsy _ _ hv]
    · intro v hv hne
      simp [editItemApply, hv, spreadStr_truthy _ _ hne]
    · intro hv
      simp [editItemApply, spreadStr_falsy _ _ hv]
    · intro v hv hne
      simp [editItemApply, hv, spreadStr_truthy _ _ hne]
    · intro hv
      simp [editItemApply, spreadStr_falsy _ _ hv]
    · intro hv
      simp [editItemApply, hv, spreadBoolOpt_true]
    · intro hv
      simp [editItemApply, spreadBoolOpt_not_true _ _ hv]
    · intro v hv hne
      simp [editItemApply, hv, spreadNumOpt_truthy _ _ hne]
    · intro hv
      simp [editItemApply, spreadNumOpt_falsy _ _ hv]
    · intro v hv hne
      simp [editItemApply, hv, spreadNum_truthy _ _ hne]
    · intro hv
      simp [editItemApply, spreadNum_falsy _ _ hv]
    · intro v hv hne
      simp [editItemApply, hv, spreadNum_truthy _ _ hne]
    · intro hv
      simp [editItemApply, spreadNum_falsy _ _ hv]
    · intro v hv hne
      simp [editItemApply, hv, spreadStrOpt_truthy _ _ hne]
    · intro hv
      simp [editItemApply, spreadStrOpt_falsy _ _ hv]
    · intro v hv hne
      simp [editItemApply, hv, spreadStrOpt_truthy _ _ hne]
    · intro hv
      simp [editItemApply, spreadStrOpt_falsy _ _ hv]
    · simp [editItemApply, editTotalAmount_eq]

/-- A category-update body with a truthy `name`, a falsy `tax: 0` and no `taxApplicable`. -/
def exCatEditBody : CategoryBody :=
  { name := some "Renamed"
    image := none
    description := none
    taxApplicable := none
    tax := some 0
    taxType := none }

/-- An item-update body with a truthy `name` and a falsy `discount: 0`. -/
def exItemEditBody : ItemBody :=
  { name := some "Oolong"
    image := none
    description := none
    taxApplicable := none
    tax := none
    baseAmount := none
    discount := some 0
    subCategory := none
    category := none }

/-- Witness for the amended C7: updating `exCategory` with `name: "Renamed", tax: 0`
succeeds; the truthy `name` is stored, while the falsy `tax` and the absent
`taxApplicable` keep their prior values.  Updating `exItem` with `name: "Oolong",
discount: 0` succeeds; the truthy `name` is stored while the falsy `discount` and the
`totalAmount` keep their prior values. -/
theorem partial_update_truthy_fields_witness :
    (editCategory "c1" exCatEditBody exDb).1
      = .payload 200 (editCategoryApply exCatEditBody exCategory) ∧
    (editCategoryApply exCatEditBody exCategory).name = "Renamed" ∧
    (editCategoryApply exCatEditBody exCategory).tax = exCategory.tax ∧
    (editCategoryApply exCatEditBody exCategory).taxApplicable = exCategory.taxApplicable ∧
    (editItem "i1" exItemEditBody exDb).1
      = .payload 200 (editItemApply exItemEditBody exItem exItem) ∧
    (editItemApply exItemEditBody exItem exItem).name = "Oolong" ∧
    (editItemApply exItemEditBody exItem exItem).discount = exItem.discount ∧
    (editItemApply exItemEditBody exItem exItem).totalAmount = exItem.totalAmount := by
  have h := (partial_update_truthy_fields).1 "c1" exCatEditBody exDb exCategory
    (by decide) (Or.inl (by decide)) (Or.inl (by decide)) (by decide)
  obtain ⟨hsucc, hstored, hnameT, hnameF, himgT, himgF, hdescT, hdescF, htaT, htaF,
    htaxT, htaxF, httT, httF⟩ := h
  have h3 := (partial_update_truthy_fields).2.2 "i1" exItemEditBody exDb exItem
    (by decide) (Or.inl (by decide)) (Or.inl (by decide)) (by decide) (by decide) (by decide)
  obtain ⟨isucc, istored, inameT, inameF, iimgT, iimgF, idescT, idescF, itaT, itaF,
    itaxT, itaxF, ibaseT, ibaseF, idiscT, idiscF, isubT, isubF, icatT, icatF, itot⟩ := h3
  exact ⟨hsucc, hnameT "Renamed" rfl (by decide), htaxF (Or.inr rfl), htaF (by decide),
    isucc, inameT "Oolong" rfl (by decide), idiscF (Or.inr rfl), by decide⟩

/-- C8: item search by a nonempty query returns, with 200, exactly the items whose name
contains the query case-insensitively; when none matches it is a 404 with message
`items not found`; item lookup by name returns the first case-insensitive substring match
with 200, or a 404 `item not found`. -/
theorem searchItem_getItem_by_name (q : String) (db : DB) (hq : q ≠ "") :
    ((db.items.filter (fun i => containsInsensitive i.name q)) = [] →
      searchItem (some q) db = .failure 404 "items not found") ∧
    ((db.items.filter (fun i => containsInsensitive i.name q)) ≠ [] →
      ∃ l : List Item, searchItem (some q) db = .payload 200 l ∧
        ∀ i : Item, i ∈ l ↔ (i ∈ db.items ∧
          (q.toList.map Char.toLower) <:+: (i.name.toList.map Char.toLower))) ∧
    (db.items.find? (fun i => containsInsensitive i.name q) = none →
      getItem none (some q) db = .failure 404 "item not found") ∧
    (∀ i : Item, db.items.find? (fun i => containsInsensitive i.name q) = some i →
      getItem none (some q) db = .payload 200 i) := by
  have hqt : jsTruthyStr (some q) = true := by simp [jsTruthyStr, hq]
  have hnone : jsTruthyStr (none : Option String) = false := rfl
  refine ⟨?_, ?_, ?_, ?_⟩
  · intro h
    simp [searchItem, hqt, h]
  · intro h
    refine ⟨db.items.filter (fun i => containsInsensitive i.name q), ?_, ?_⟩
    · simp [searchItem, hqt, list_isEmpty_iff_nil, h]
    · intro i
      simp [List.mem_filter, containsInsensitive]
  · intro h
    simp [getItem, hqt, hnone, h]
  · intro i h
    simp [getItem, hqt, hnone, h]

/-- Witness for C8: in `exDb` (one item named `Green Tea`) searching `coffee` is a 404
`items not found`, and looking the item up by name `tea` returns `exItem` with 200. -/
theorem searchItem_getItem_by_name_witness :
    searchItem (some "coffee") exDb = .failure 404 "items not found" ∧
    getItem none (some "tea") exDb = .payload 200 exItem := by
  have h1 := searchItem_getItem_by_name "coffee" exDb (by decide)
  have h2 := searchItem_getItem_by_name "tea" exDb (by decide)
  exact ⟨h1.1 (by decide), h2.2.2.2 exItem (by decide)⟩
